import Mathlib

/-!
Verification of the SMAC (StarCraft Multi-Agent Challenge) environment
wrapper `torchrl/envs/libs/smac.py` against its design specification.

The wrapper is shallowly embedded: Python tensors become a `Tensor`
structure carrying shape, dtype and flattened payload (scalar payloads
are modelled by `Int`; dtypes are tracked as tags, so no floating-point
arithmetic is modelled); the `TensorDict` container becomes an ordered
association list with a batch size and a device tag; the external
`smac.env.StarCraft2Env` instance becomes a state type `σ` together with
a record of transition functions (`SC2Dyn`); Python exceptions become an
`Except PyError` result.  The spec's language-neutral error taxonomy maps
to the Python exceptions actually raised by the code: ConfigurationError
is `TypeError`, UnsupportedOperation is `NotImplementedError`,
DependencyMissing is the `RuntimeError` raised by `SC2Env._build_env`.

Definitions coming from repository files that are not part of this
fragment (the tensor-spec value classes, the `GymLikeEnv` base class
helpers `read_obs` / `_to_tensor`, the `tensordict` container) are
modelled from the spec and say so in their doc comments.
-/

namespace SmacVerify

/-- Tensor dtype tags relevant to the wrapper. -/
inductive Dtype where
  | float32
  | int64
  | bool
deriving DecidableEq

/-- Shallow model of a torch tensor: a shape, a dtype tag and a flattened
payload.  Boolean entries are encoded as `0` / `1` in the payload. -/
structure Tensor where
  shape : List Nat
  dtype : Dtype
  vals : List Int
deriving DecidableEq

/-- Number of elements of a tensor shape (`torch.Size.numel`); the empty
shape is a 0-dimensional scalar holding one element. -/
def listProd (l : List Nat) : Nat := l.foldl (fun a b => a * b) 1

/-- Modelled from the spec: the `tensordict` container (not under this
fragment) is "a keyed, ordered mapping from field name to tensor-like
value, carrying a batch dimension and device/location tag". -/
structure TensorDict where
  fields : List (String × Tensor)
  batch_size : List Nat
  device : String
deriving DecidableEq

/-- Modelled from the spec: `TensorDict.set` overwrites an existing key in
place, otherwise appends the new field, preserving insertion order. -/
def TensorDict.set (td : TensorDict) (k : String) (v : Tensor) : TensorDict :=
  if td.fields.any (fun p => p.1 = k) then
    { td with fields := td.fields.map (fun p => if p.1 = k then (k, v) else p) }
  else
    { td with fields := td.fields ++ [(k, v)] }

/-- Modelled from the spec: `TensorDict.get` looks a field up by name. -/
def TensorDict.get (td : TensorDict) (k : String) : Option Tensor :=
  td.fields.lookup k

/-- Metadata returned by `smac.env.StarCraft2Env.get_env_info()`: the keys
the wrapper reads (`n_agents`, `obs_shape`) plus the per-agent action count. -/
structure EnvInfo where
  n_agents : Nat
  obs_shape : Nat
  n_actions : Nat
deriving DecidableEq

/-- Python exceptions surfaced by the wrapper, tagged by exception class. -/
inductive PyError where
  | typeError (msg : String)
  | nameError (msg : String)
  | runtimeError (msg : String)
  | notImplementedError (msg : String)
  | keyError (msg : String)
deriving DecidableEq

/-- The external `smac.env.StarCraft2Env` handle, modelled as a state type
`σ` plus the methods the wrapper calls on it.  `reset` returns the
per-agent observation matrix, the global state vector (ignored by the
wrapper) and the successor environment state; `step` takes the decoded
integer action list and either raises an environment-native error or
returns `(reward, done, successor state)`. -/
structure SC2Dyn (σ : Type) where
  get_env_info : σ → EnvInfo
  reset : σ → List (List Int) × List Int × σ
  step : σ → List Int → Except PyError (Int × Bool × σ)
  get_obs : σ → List (List Int)
  get_avail_actions : σ → List (List Bool)
  seed : σ → Option Int

/-- Leaf tensor specs used by the wrapper: the unbounded continuous spec
(`UnboundedContinuousTensorSpec` / `NdUnboundedContinuousTensorSpec`) and
the masked one-hot discrete spec (`CustomNdOneHotDiscreteTensorSpec`).
Modelled from the spec: the tensor-spec value classes of
`torchrl.data.tensor_specs` are not part of this fragment; they are
"pure value objects" describing shape, dtype and domain. -/
inductive LeafSpec where
  | unboundedContinuous (shape : List Nat) (dtype : Dtype)
  | customNdOneHotDiscrete (mask : Tensor)
deriving DecidableEq

/-- Declared shape of a leaf spec; the one-hot spec takes its shape from
its availability mask. -/
def LeafSpec.shape : LeafSpec → List Nat
  | LeafSpec.unboundedContinuous s _ => s
  | LeafSpec.customNdOneHotDiscrete m => m.shape

/-- Declared dtype of a leaf spec; one-hot discrete specs use
`torch.int64`. -/
def LeafSpec.dtype : LeafSpec → Dtype
  | LeafSpec.unboundedContinuous _ d => d
  | LeafSpec.customNdOneHotDiscrete _ => Dtype.int64

/-- Composite spec: a named mapping of leaf specs (`CompositeSpec`).
Modelled from the spec, like `LeafSpec`. -/
structure CompositeSpec where
  fields : List (String × LeafSpec)
deriving DecidableEq

/-- Helper for decoding a flattened row-major payload into rows of width
`n + 1`: `rowsAux n xs i` has `i` slots left in the current row. -/
def rowsAux (n : Nat) : List Int → Nat → List Int × List (List Int)
  | [], _ => ([], [])
  | x :: xs, 0 =>
    let p := rowsAux n xs n
    ([], (x :: p.1) :: p.2)
  | x :: xs, i + 1 =>
    let p := rowsAux n xs i
    (x :: p.1, p.2)

/-- Split a flattened payload into rows of width `m` (row-major). -/
def rowsOf : Nat → List Int → List (List Int)
  | _, [] => []
  | 0, _ :: _ => []
  | n + 1, x :: xs =>
    let p := rowsAux n xs n
    (x :: p.1) :: p.2

/-- Index of the first maximal entry of a row, tracking the best index and
value seen so far (`torch.argmax` along the last dimension). -/
def argmaxAux : List Int → Nat → Nat → Int → Nat
  | [], _, bi, _ => bi
  | x :: xs, i, bi, bv =>
    if bv < x then argmaxAux xs (i + 1) i x else argmaxAux xs (i + 1) bi bv

/-- Index of the first maximal entry of a row. -/
def argmaxRow : List Int → Nat
  | [] => 0
  | x :: xs => argmaxAux xs 1 0 x

/-- Modelled from the spec: a spec's `to_external_format` conversion
("convert a one-hot tensor to the integer/array form the external
environment expects").  For the one-hot action spec this is the per-agent
argmax over the last dimension; the continuous specs convert payloads
unchanged. -/
def LeafSpec.to_numpy : LeafSpec → Tensor → List Int
  | LeafSpec.customNdOneHotDiscrete _, t =>
    (rowsOf (t.shape.getLastD 0) t.vals).map (fun r => (argmaxRow r : Int))
  | LeafSpec.unboundedContinuous _ _, t => t.vals

/-- A per-agent observation matrix as a float32 tensor, with the shape
inferred from the (rectangular) nested-list payload as numpy does. -/
def tensorOfMatrix (m : List (List Int)) (d : Dtype) : Tensor :=
  { shape := [m.length, (m.headD []).length], dtype := d, vals := m.flatten }

/-- The availability mask `torch.tensor(env.get_avail_actions(),
dtype=torch.bool)`: a boolean matrix tensor with `True` as `1`. -/
def boolMatrixTensor (m : List (List Bool)) : Tensor :=
  { shape := [m.length, (m.headD []).length],
    dtype := Dtype.bool,
    vals := m.flatten.map (fun b => if b then (1 : Int) else 0) }

/-- The tensor `torch.zeros(shape, dtype=torch.bool)`. -/
def zerosBool (shape : List Nat) : Tensor :=
  { shape := shape, dtype := Dtype.bool, vals := List.replicate (listProd shape) 0 }

/-- Modelled from the spec: `GymLikeEnv._to_tensor` applied to a scalar
(reward or done flag), casting it "to the reward spec's dtype" resp.
"to boolean"; the docstring examples show the resulting shape `[1]`. -/
def toTensorScalar (v : Int) (d : Dtype) : Tensor :=
  { shape := [1], dtype := d, vals := [v] }

/-- Modelled from the spec: `GymLikeEnv.read_obs` "wraps returned
per-agent observations into a container record" under the field name
`observation` (dtype `float32` per the class docstring example). -/
def read_obs (obs : List (List Int)) : List (String × Tensor) :=
  [("observation", tensorOfMatrix obs Dtype.float32)]

/-- The wrapper object `SC2Wrapper`: the owned external environment
(dynamics plus current state), the batch size and device inherited from
the base class, the three spec slots filled by `_make_specs`, and the
`_is_done` flag written by `_reset`. -/
structure SC2Wrapper (σ : Type) where
  dyn : SC2Dyn σ
  envState : σ
  batch_size : List Nat
  device : String
  reward_spec : LeafSpec
  input_spec : CompositeSpec
  observation_spec : CompositeSpec
  is_done : Tensor

/-- Source `SC2Wrapper._make_reward_spec`: an
`UnboundedContinuousTensorSpec` (shape `[1]`, dtype `float32`). -/
def _make_reward_spec : LeafSpec :=
  LeafSpec.unboundedContinuous [1] Dtype.float32

/-- Source `SC2Wrapper._make_input_spec`: a composite spec holding the
`action` one-hot spec masked by `env.get_avail_actions()`. -/
def _make_input_spec {σ : Type} (d : SC2Dyn σ) (s : σ) : CompositeSpec :=
  { fields := [("action",
      LeafSpec.customNdOneHotDiscrete (boolMatrixTensor (d.get_avail_actions s)))] }

/-- Source `SC2Wrapper._make_observation_spec`: a composite spec holding
the `observation` spec of shape `(n_agents, obs_shape)` read from
`env.get_env_info()`. -/
def _make_observation_spec {σ : Type} (d : SC2Dyn σ) (s : σ) : CompositeSpec :=
  let info := d.get_env_info s
  { fields := [("observation",
      LeafSpec.unboundedContinuous [info.n_agents, info.obs_shape] Dtype.float32)] }

/-- Source `SC2Wrapper._make_specs`: reward spec from the class
definition, input and observation specs from the built instance. -/
def _make_specs {σ : Type} (d : SC2Dyn σ) (s : σ) :
    LeafSpec × CompositeSpec × CompositeSpec :=
  (_make_reward_spec, _make_input_spec d s, _make_observation_spec d s)

/-- Source `SC2Wrapper._set_seed`: unconditionally raises
`NotImplementedError`. -/
def _set_seed {σ : Type} (_w : SC2Wrapper σ) (_seed : Option Int) : Except PyError Unit :=
  Except.error (PyError.notImplementedError
    "Seed cannot be changed once environment was created.")

/-- Source `SC2Wrapper.get_seed`: delegates to `self._env.seed()`. -/
def get_seed {σ : Type} (w : SC2Wrapper σ) : Option Int :=
  w.dyn.seed w.envState

/-- Source `SC2Wrapper._reset`: calls `env.reset()`, wraps the returned
observations with `read_obs`, appends an all-false boolean `done` tensor
of the wrapper's batch size, records it in `_is_done`, and returns the
fresh record together with the updated wrapper. -/
def _reset {σ : Type} (w : SC2Wrapper σ) : TensorDict × SC2Wrapper σ :=
  let r := w.dyn.reset w.envState
  let obs := r.1
  let s' := r.2.2
  let obs_dict := read_obs obs
  let dn := zerosBool w.batch_size
  let td0 : TensorDict :=
    { fields := obs_dict, batch_size := w.batch_size, device := w.device }
  let tensordict_out := td0.set "done" dn
  (tensordict_out, { w with envState := s', is_done := dn })

/-- Source `SC2Wrapper._action_transform`: `self.action_spec.to_numpy(action)`,
where `action_spec` is the `action` entry of the input spec. -/
def _action_transform {σ : Type} (w : SC2Wrapper σ) (action : Tensor) :
    Except PyError (List Int) :=
  match w.input_spec.fields.lookup "action" with
  | Option.none => Except.error (PyError.keyError "action")
  | Option.some aspec => Except.ok (aspec.to_numpy action)

/-- Source `SC2Wrapper._step`: reads the `action` field, converts it with
`_action_transform`, calls `env.step` (whose errors propagate as-is),
wraps `env.get_obs()` into a fresh record with `reward` cast to the
reward spec's dtype and `done` cast to boolean, and finally re-derives
the input spec from the stepped environment's available actions. -/
def _step {σ : Type} (w : SC2Wrapper σ) (tensordict : TensorDict) :
    Except PyError (TensorDict × SC2Wrapper σ) :=
  match tensordict.get "action" with
  | Option.none => Except.error (PyError.keyError "action")
  | Option.some action =>
    match _action_transform w action with
    | Except.error e => Except.error e
    | Except.ok action_np =>
      match w.dyn.step w.envState action_np with
      | Except.error e => Except.error e
      | Except.ok res =>
        let reward := res.1
        let doneB := res.2.1
        let s' := res.2.2
        let obs_dict := read_obs (w.dyn.get_obs s')
        let reward_t := toTensorScalar reward w.reward_spec.dtype
        let done_t := toTensorScalar (if doneB then 1 else 0) Dtype.bool
        let td0 : TensorDict :=
          { fields := obs_dict, batch_size := tensordict.batch_size, device := w.device }
        let tensordict_out := (td0.set "reward" reward_t).set "done" done_t
        Except.ok (tensordict_out,
          { w with envState := s', input_spec := _make_input_spec w.dyn s' })

/-- The smac map registry (`smac.env.starcraft2.maps.smac_maps`), present
only when the `smac` library is importable; map parameters are abstracted
to a payload. -/
structure SmacMaps where
  registry : List (String × Nat)

/-- Source `_get_envs`: empty when `smac` is not importable (`_has_smac`
false, modelled by `Option.none`), otherwise the keys of the map
registry. -/
def _get_envs (lib : Option SmacMaps) : List String :=
  match lib with
  | Option.none => []
  | Option.some l => l.registry.map Prod.fst

/-- Source `SC2Wrapper.available_envs`: the class attribute initialised to
`_get_envs()` at import time. -/
def available_envs (lib : Option SmacMaps) : List String :=
  _get_envs lib

/-- Source `SC2Wrapper.git_url`. -/
def git_url : String := "https://github.com/oxwhirl/smac"

/-- The message of the `RuntimeError` raised by `SC2Env._build_env` when
`smac` is absent, with `IMPORT_ERR` (the stringified original
`ImportError`) interpolated. -/
def smacNotFoundMsg (importErr : String) : String :=
  "smac not found, unable to create smac.env.StarCraft2Env. " ++
    "Consider installing smac. More info: " ++ git_url ++
    ". (Original error message during import: " ++ importErr ++ ")."

/-- Python values that construction keyword arguments can hold; the only
distinction the code makes is whether a value is a
`smac.env.StarCraft2Env` instance. -/
inductive PyVal where
  | starCraft2Env (envId : Nat)
  | strVal (s : String)
  | intVal (n : Int)
  | pyNone
deriving DecidableEq

/-- The `isinstance(v, smac.env.StarCraft2Env)` test. -/
def PyVal.isStarCraft2Env : PyVal → Bool
  | PyVal.starCraft2Env _ => true
  | _ => false

/-- Source `SC2Wrapper._check_kwargs`: requires an `env` key and then
evaluates `isinstance(env, (smac.env.StarCraft2Env,))`.  When the `smac`
module failed to import (`hasSmac` false) the module-level name `smac` is undefined
and evaluating `smac.env.StarCraft2Env` raises `NameError` before any
type check happens. -/
def SC2Wrapper_check_kwargs (hasSmac : Bool) (kwargs : List (String × PyVal)) :
    Except PyError Unit :=
  match kwargs.lookup "env" with
  | Option.none =>
    Except.error (PyError.typeError "Could not find environment key 'env' in kwargs.")
  | Option.some env =>
    if hasSmac then
      if env.isStarCraft2Env then Except.ok ()
      else Except.error (PyError.typeError "env is not of type 'smac.env.StarCraft2Env'.")
    else Except.error (PyError.nameError "name 'smac' is not defined")

/-- Source `SC2Env._check_kwargs`: requires a `map_name` key. -/
def SC2Env_check_kwargs (kwargs : List (String × PyVal)) : Except PyError Unit :=
  match kwargs.lookup "map_name" with
  | Option.none =>
    Except.error (PyError.typeError "Expected 'map_name' to be part of kwargs")
  | Option.some _ => Except.ok ()

/-- Source `SC2Env._build_env`: raises `RuntimeError` with the
install-hint message when `smac` is absent; otherwise constructs the
native environment (external) and resets it once, which cannot raise a
dependency error. -/
def SC2Env_build_env (hasSmac : Bool) (importErr : String) : Except PyError Unit :=
  if hasSmac then Except.ok ()
  else Except.error (PyError.runtimeError (smacNotFoundMsg importErr))

/-- Modelled from the spec: the base-class construction sequence
(`construct(config)`) for `SC2Wrapper`, which "validates that the
required external-environment identifier (or instance) is present in
config" and then builds; `SC2Wrapper._build_env` only resets the injected
instance, so validation is the sole failure point. -/
def SC2Wrapper_construct (hasSmac : Bool) (kwargs : List (String × PyVal)) :
    Except PyError Unit :=
  SC2Wrapper_check_kwargs hasSmac kwargs

/-- Modelled from the spec: the base-class construction sequence for
`SC2Env`, running its overridden `_check_kwargs` and then its overridden
`_build_env`. -/
def SC2Env_construct (hasSmac : Bool) (importErr : String)
    (kwargs : List (String × PyVal)) : Except PyError Unit :=
  match SC2Env_check_kwargs kwargs with
  | Except.error e => Except.error e
  | Except.ok _ => SC2Env_build_env hasSmac importErr

/-- One string occurs inside another. -/
def substrOf (needle m : String) : Prop :=
  ∃ a b, m = a ++ needle ++ b

/-- The spec's "clear library-not-installed error": a `RuntimeError`
whose message names the missing dependency `smac` and carries the
remediation hint (the project URL). -/
def isDependencyMissingError : PyError → Prop
  | PyError.runtimeError m => substrOf "smac" m ∧ substrOf git_url m
  | _ => False

/-- Well-formedness of an external environment: its metadata is static,
it has at least one agent, and the observation matrices returned by
`reset` and `get_obs` have `n_agents` rows of `obs_shape` entries each. -/
structure SC2DynWf {σ : Type} (d : SC2Dyn σ) : Prop where
  info_static : ∀ s s', d.get_env_info s = d.get_env_info s'
  agents_pos : ∀ s, 0 < (d.get_env_info s).n_agents
  reset_rows : ∀ s, ((d.reset s).1).length = (d.get_env_info s).n_agents
  reset_cols : ∀ s, ∀ r ∈ (d.reset s).1, r.length = (d.get_env_info s).obs_shape
  obs_rows : ∀ s, (d.get_obs s).length = (d.get_env_info s).n_agents
  obs_cols : ∀ s, ∀ r ∈ (d.get_obs s), r.length = (d.get_env_info s).obs_shape

/-- A small concrete external environment used to evaluate the theorems:
two agents, three observation features, two actions; the available-action
mask alternates with the (natural-number) environment state. -/
def demoInfo : EnvInfo := { n_agents := 2, obs_shape := 3, n_actions := 2 }

/-- Concrete dynamics for the demo environment. -/
def demoDyn : SC2Dyn Nat :=
  { get_env_info := fun _ => demoInfo
    reset := fun s => ([[1, 2, 3], [4, 5, 6]], [7], s + 1)
    step := fun s a =>
      if a.length = 2 then Except.ok (5, false, s + 1)
      else Except.error (PyError.runtimeError "invalid action list")
    get_obs := fun _ => [[1, 2, 3], [4, 5, 6]]
    get_avail_actions := fun s =>
      if s % 2 = 0 then [[true, false], [true, true]] else [[false, true], [true, false]]
    seed := fun _ => Option.some 42 }

/-- The demo wrapper as constructed: specs derived from the initial
environment state `0`, empty batch shape, cpu device. -/
def demoWrapper : SC2Wrapper Nat :=
  { dyn := demoDyn
    envState := 0
    batch_size := []
    device := "cpu"
    reward_spec := _make_reward_spec
    input_spec := _make_input_spec demoDyn 0
    observation_spec := _make_observation_spec demoDyn 0
    is_done := zerosBool [] }

/-- A concrete one-hot action tensor for the demo wrapper (agent 0 picks
action 0, agent 1 picks action 1). -/
def demoAction : Tensor :=
  { shape := [2, 2], dtype := Dtype.int64, vals := [1, 0, 0, 1] }

/-- The input record carrying the demo action. -/
def demoTd : TensorDict :=
  { fields := [("action", demoAction)], batch_size := [], device := "cpu" }

/-- The record `_step demoWrapper demoTd` returns. -/
def demoStepOut : TensorDict :=
  { fields :=
      [("observation", tensorOfMatrix [[1, 2, 3], [4, 5, 6]] Dtype.float32),
       ("reward", toTensorScalar 5 Dtype.float32),
       ("done", toTensorScalar 0 Dtype.bool)],
    batch_size := [],
    device := "cpu" }

/-- The wrapper state `_step demoWrapper demoTd` returns: environment
advanced to state `1`, input spec re-derived there. -/
def demoWrapperAfter : SC2Wrapper Nat :=
  { demoWrapper with envState := 1, input_spec := _make_input_spec demoDyn 1 }

/-- The one-hot action spec the demo wrapper holds after construction. -/
def demoActionSpec : LeafSpec :=
  LeafSpec.customNdOneHotDiscrete (boolMatrixTensor (demoDyn.get_avail_actions 0))

/-- A malformed action tensor (one row instead of two): the demo
environment rejects the decoded action list. -/
def demoBadAction : Tensor :=
  { shape := [1, 2], dtype := Dtype.int64, vals := [1, 0] }

/-- The input record carrying the malformed action. -/
def demoBadTd : TensorDict :=
  { fields := [("action", demoBadAction)], batch_size := [], device := "cpu" }

/-- The record a successful `_step` builds: the fresh observations under
`read_obs`, `reward` cast to the reward spec's dtype and `done` cast to
boolean, at the input record's batch size. -/
def stepOutDict {σ : Type} (w : SC2Wrapper σ) (td : TensorDict) (rew : Int)
    (dn : Bool) (s' : σ) : TensorDict :=
  { fields :=
      [("observation", tensorOfMatrix (w.dyn.get_obs s') Dtype.float32),
       ("reward", toTensorScalar rew w.reward_spec.dtype),
       ("done", toTensorScalar (if dn then 1 else 0) Dtype.bool)],
    batch_size := td.batch_size,
    device := w.device }

/-- The demo dynamics are well-formed. -/
theorem demoDyn_wf : SC2DynWf demoDyn := by
  constructor
  · intro s s'; rfl
  · intro s; show 0 < demoInfo.n_agents; decide
  · intro s; rfl
  · intro s
    show ∀ r ∈ [[(1 : Int), 2, 3], [4, 5, 6]], r.length = demoInfo.obs_shape
    decide
  · intro s; rfl
  · intro s
    show ∀ r ∈ [[(1 : Int), 2, 3], [4, 5, 6]], r.length = demoInfo.obs_shape
    decide

/-- Shape of `tensorOfMatrix` on a rectangular nonempty matrix. -/
theorem tensorOfMatrix_shape (m : List (List Int)) (d : Dtype) (n o : Nat)
    (hn : m.length = n) (ho : ∀ r ∈ m, r.length = o) (hpos : 0 < n) :
    (tensorOfMatrix m d).shape = [n, o] := by
  cases m with
  | nil => simp at hn; omega
  | cons r rs =>
    have hr : r.length = o := ho r (List.mem_cons_self r rs)
    simp [tensorOfMatrix]
    exact ⟨hn, hr⟩

/-- Characterization of a successful `_step`: with the action present,
the action spec in place and the environment step succeeding, `_step`
returns the fresh output record and the wrapper with advanced environment
state and re-derived input spec. -/
theorem _step_eq_ok {σ : Type} (w : SC2Wrapper σ) (td : TensorDict) (a : Tensor)
    (aspec : LeafSpec) (rew : Int) (dn : Bool) (s' : σ)
    (ha : td.get "action" = Option.some a)
    (hs : w.input_spec.fields.lookup "action" = Option.some aspec)
    (hst : w.dyn.step w.envState (aspec.to_numpy a) = Except.ok (rew, dn, s')) :
    _step w td = Except.ok (stepOutDict w td rew dn s',
      { w with envState := s', input_spec := _make_input_spec w.dyn s' }) := by
  simp only [_step, _action_transform, ha, hs, hst]
  rfl

/-- Inversion of a successful `_step`: it must have found an action and
an action spec, the environment step must have succeeded, and the outputs
have the shape of `stepOutDict` and the updated wrapper. -/
theorem _step_ok_inv {σ : Type} (w : SC2Wrapper σ) (td td' : TensorDict)
    (w' : SC2Wrapper σ) (h : _step w td = Except.ok (td', w')) :
    ∃ a aspec rew dn s',
      td.get "action" = Option.some a ∧
      w.input_spec.fields.lookup "action" = Option.some aspec ∧
      w.dyn.step w.envState (aspec.to_numpy a) = Except.ok (rew, dn, s') ∧
      td' = stepOutDict w td rew dn s' ∧
      w' = { w with envState := s', input_spec := _make_input_spec w.dyn s' } := by
  cases ha : td.get "action" with
  | none => simp [_step, ha] at h
  | some a =>
    cases hs : w.input_spec.fields.lookup "action" with
    | none => simp [_step, _action_transform, ha, hs] at h
    | some aspec =>
      cases hst : w.dyn.step w.envState (aspec.to_numpy a) with
      | error e => simp [_step, _action_transform, ha, hs, hst] at h
      | ok res =>
        obtain ⟨rew, dn, s'⟩ := res
        rw [_step_eq_ok w td a aspec rew dn s' ha hs hst] at h
        simp only [Except.ok.injEq, Prod.mk.injEq] at h
        exact ⟨a, aspec, rew, dn, s', rfl, rfl, hst, h.1.symm, h.2.symm⟩

/-- The suffix `smac` of the project URL names the missing dependency. -/
theorem substrOf_smac_of_git_url (m : String) (h : substrOf git_url m) :
    substrOf "smac" m := by
  obtain ⟨a, b, hm⟩ := h
  refine ⟨a ++ "https://github.com/oxwhirl/", b, ?_⟩
  rw [hm]
  show a ++ git_url ++ b = a ++ "https://github.com/oxwhirl/" ++ "smac" ++ b
  simp [git_url, String.append_assoc]

/-- The dependency-missing message carries the project-URL remediation
hint. -/
theorem smacNotFoundMsg_has_hint (ie : String) :
    substrOf git_url (smacNotFoundMsg ie) := by
  refine ⟨"smac not found, unable to create smac.env.StarCraft2Env. " ++
      "Consider installing smac. More info: ",
    ". (Original error message during import: " ++ ie ++ ").", ?_⟩
  show smacNotFoundMsg ie = _
  unfold smacNotFoundMsg
  simp [String.append_assoc]

/-- C5: for every constructed wrapper, regardless of prior call history,
setting a new seed fails with the `NotImplementedError` raised by
`SC2Wrapper._set_seed`, while `get_seed` succeeds and delegates to the
external environment's `seed()`. -/
theorem C5_seed_control {σ : Type} (w : SC2Wrapper σ) (seed : Option Int) :
    _set_seed w seed = Except.error (PyError.notImplementedError
      "Seed cannot be changed once environment was created.") ∧
    get_seed w = w.dyn.seed w.envState :=
  ⟨rfl, rfl⟩

/-- C7: with the `smac` library absent the scenario catalog
`available_envs` is empty; with it present the catalog lists the keys of
the library's map registry. -/
theorem C7_available_envs_catalog :
    available_envs Option.none = [] ∧
    ∀ lib : SmacMaps, available_envs (Option.some lib) = lib.registry.map Prod.fst :=
  ⟨rfl, fun _ => rfl⟩

/-- C8: `_make_specs` on a built environment produces an unbounded
continuous float32 reward spec, an `action` one-hot spec masked by the
environment's currently available actions, and an `observation` spec of
shape `(n_agents, obs_shape)` taken from the environment metadata. -/
theorem C8_build_specs {σ : Type} (d : SC2Dyn σ) (s : σ) :
    (_make_specs d s).1 = LeafSpec.unboundedContinuous [1] Dtype.float32 ∧
    ((_make_specs d s).1).dtype = Dtype.float32 ∧
    (_make_specs d s).2.1.fields.lookup "action"
      = Option.some (LeafSpec.customNdOneHotDiscrete
          (boolMatrixTensor (d.get_avail_actions s))) ∧
    (_make_specs d s).2.2.fields.lookup "observation"
      = Option.some (LeafSpec.unboundedContinuous
          [(d.get_env_info s).n_agents, (d.get_env_info s).obs_shape] Dtype.float32) :=
  ⟨rfl, rfl, rfl, rfl⟩

/-- C6: construction validates its configuration: with the library
present, `SC2Wrapper._check_kwargs` succeeds exactly when the `env` key
holds a `StarCraft2Env` instance and otherwise raises `TypeError` (the
spec's ConfigurationError), for a missing key as well as for a value of
the wrong concrete type; `SC2Env._check_kwargs` succeeds exactly when
`map_name` is present and raises `TypeError` otherwise. -/
theorem C6_construction_validation (kwargs : List (String × PyVal)) :
    (SC2Wrapper_check_kwargs true kwargs = Except.ok () ↔
      ∃ v, kwargs.lookup "env" = Option.some v ∧ v.isStarCraft2Env = true) ∧
    (kwargs.lookup "env" = Option.none →
      SC2Wrapper_check_kwargs true kwargs
        = Except.error (PyError.typeError "Could not find environment key 'env' in kwargs.")) ∧
    (∀ v, kwargs.lookup "env" = Option.some v → v.isStarCraft2Env = false →
      SC2Wrapper_check_kwargs true kwargs
        = Except.error (PyError.typeError "env is not of type 'smac.env.StarCraft2Env'.")) ∧
    (SC2Env_check_kwargs kwargs = Except.ok () ↔
      ∃ v, kwargs.lookup "map_name" = Option.some v) ∧
    (kwargs.lookup "map_name" = Option.none →
      SC2Env_check_kwargs kwargs
        = Except.error (PyError.typeError "Expected 'map_name' to be part of kwargs")) := by
  refine ⟨?_, ?_, ?_, ?_, ?_⟩
  · cases hl : kwargs.lookup "env" with
    | none => simp [SC2Wrapper_check_kwargs, hl]
    | some v =>
      cases hv : v.isStarCraft2Env <;> simp [SC2Wrapper_check_kwargs, hl, hv]
  · intro hl; simp [SC2Wrapper_check_kwargs, hl]
  · intro v hl hv; simp [SC2Wrapper_check_kwargs, hl, hv]
  · cases hl : kwargs.lookup "map_name" with
    | none => simp [SC2Env_check_kwargs, hl]
    | some v => simp [SC2Env_check_kwargs, hl]
  · intro hl; simp [SC2Env_check_kwargs, hl]

/-- Witness for C6: a wrapper-path configuration holding a
`StarCraft2Env` instance under `env` passes validation. -/
theorem C6_construction_validation_witness :
    SC2Wrapper_check_kwargs true [("env", PyVal.starCraft2Env 0)] = Except.ok () :=
  ((C6_construction_validation [("env", PyVal.starCraft2Env 0)]).1).mpr
    ⟨PyVal.starCraft2Env 0, rfl, rfl⟩

/-- Counterexample to C4 as stated: with the library absent, the
direct-wrapper construction path (`SC2Wrapper` with an `env` keyword)
does not fail with a clear library-not-installed error; evaluating the
`isinstance` check raises `NameError`, which names no dependency and
carries no remediation hint. -/
theorem C4_counterexample :
    SC2Wrapper_construct false [("env", PyVal.pyNone)]
      = Except.error (PyError.nameError "name 'smac' is not defined") ∧
    ¬ isDependencyMissingError (PyError.nameError "name 'smac' is not defined") :=
  ⟨rfl, fun h => h⟩

/-- C4 (amended): with the library absent, the scenario-name construction
path (`SC2Env`) fails with the `RuntimeError` naming `smac` and carrying
the project-URL remediation hint, while the direct-wrapper path also
fails, but with a `NameError` that is not a library-not-installed
error. -/
theorem C4_dependency_missing (importErr : String) :
    (∀ kwargs v, kwargs.lookup "map_name" = Option.some v →
      SC2Env_construct false importErr kwargs
        = Except.error (PyError.runtimeError (smacNotFoundMsg importErr))) ∧
    isDependencyMissingError (PyError.runtimeError (smacNotFoundMsg importErr)) ∧
    (∀ kwargs v, kwargs.lookup "env" = Option.some v →
      SC2Wrapper_construct false kwargs
        = Except.error (PyError.nameError "name 'smac' is not defined") ∧
      ¬ isDependencyMissingError (PyError.nameError "name 'smac' is not defined")) := by
  refine ⟨?_, ?_, ?_⟩
  · intro kwargs v hl
    simp [SC2Env_construct, SC2Env_check_kwargs, SC2Env_build_env, hl]
  · exact ⟨substrOf_smac_of_git_url _ (smacNotFoundMsg_has_hint importErr),
      smacNotFoundMsg_has_hint importErr⟩
  · intro kwargs v hl
    exact ⟨by simp [SC2Wrapper_construct, SC2Wrapper_check_kwargs, hl], fun h => h⟩

/-- Witness for C4 (amended): the scenario path fails with the
dependency-missing `RuntimeError` on a concrete configuration. -/
theorem C4_dependency_missing_witness :
    SC2Env_construct false "No module named smac" [("map_name", PyVal.strVal "8m")]
      = Except.error (PyError.runtimeError (smacNotFoundMsg "No module named smac")) :=
  (C4_dependency_missing "No module named smac").1
    [("map_name", PyVal.strVal "8m")] (PyVal.strVal "8m") rfl

/-- C1: on every constructed wrapper over a well-formed environment,
`_reset` returns a record whose field names are exactly those of the
observation spec followed by `done`; every observation field matches the
spec's declared shape and dtype; and the `done` field is a boolean tensor
of the wrapper's batch shape whose entries are all false. -/
theorem C1_reset_record {σ : Type} (w : SC2Wrapper σ) (hwf : SC2DynWf w.dyn)
    (hspec : w.observation_spec = _make_observation_spec w.dyn w.envState) :
    (((_reset w).1).fields.map Prod.fst
        = w.observation_spec.fields.map Prod.fst ++ ["done"]) ∧
    (∀ k ls, (k, ls) ∈ w.observation_spec.fields →
      ∃ t, ((_reset w).1).get k = Option.some t ∧
        t.shape = ls.shape ∧ t.dtype = ls.dtype) ∧
    (∃ d, ((_reset w).1).get "done" = Option.some d ∧
      d.dtype = Dtype.bool ∧ d.shape = w.batch_size ∧
      d.vals.length = listProd w.batch_size ∧ ∀ v ∈ d.vals, v = 0) := by
  have hrows := hwf.reset_rows w.envState
  have hcols := hwf.reset_cols w.envState
  have hpos := hwf.agents_pos w.envState
  refine ⟨?_, ?_, ?_⟩
  · simp [_reset, read_obs, TensorDict.set, hspec, _make_observation_spec]
  · intro k ls hmem
    rw [hspec] at hmem
    simp only [_make_observation_spec, List.mem_singleton, Prod.mk.injEq] at hmem
    obtain ⟨hk, hls⟩ := hmem
    subst hk
    subst hls
    refine ⟨tensorOfMatrix (w.dyn.reset w.envState).1 Dtype.float32, ?_, ?_, rfl⟩
    · simp [_reset, read_obs, TensorDict.set, TensorDict.get, List.lookup]
    · rw [tensorOfMatrix_shape _ _ _ _ hrows hcols hpos]
      rfl
  · refine ⟨zerosBool w.batch_size, ?_, rfl, rfl, ?_, ?_⟩
    · simp [_reset, read_obs, TensorDict.set, TensorDict.get, List.lookup]
    · simp [zerosBool]
    · intro v hv
      simp only [zerosBool] at hv
      exact List.eq_of_mem_replicate hv

/-- Witness for C1 at the demo wrapper. -/
theorem C1_reset_record_witness :
    SC2DynWf demoWrapper.dyn ∧
    demoWrapper.observation_spec
      = _make_observation_spec demoWrapper.dyn demoWrapper.envState ∧
    (∃ d, ((_reset demoWrapper).1).get "done" = Option.some d ∧
      d.dtype = Dtype.bool ∧ d.shape = demoWrapper.batch_size ∧
      d.vals.length = listProd demoWrapper.batch_size ∧ ∀ v ∈ d.vals, v = 0) :=
  ⟨demoDyn_wf, rfl, (C1_reset_record demoWrapper demoDyn_wf rfl).2.2⟩

/-- C2: whenever a `_step` call on a constructed wrapper over a
well-formed environment returns a record, that record's `reward` field is
cast to the reward spec's dtype, its `done` field is cast to boolean, and
its observation fields match the observation spec's names, shapes and
dtypes exactly. -/
theorem C2_step_record {σ : Type} (w : SC2Wrapper σ) (td td' : TensorDict)
    (w' : SC2Wrapper σ) (hwf : SC2DynWf w.dyn)
    (hspec : w.observation_spec = _make_observation_spec w.dyn w.envState)
    (h : _step w td = Except.ok (td', w')) :
    (∃ r, td'.get "reward" = Option.some r ∧ r.dtype = w.reward_spec.dtype) ∧
    (∃ d, td'.get "done" = Option.some d ∧ d.dtype = Dtype.bool) ∧
    (td'.fields.map Prod.fst
        = w.observation_spec.fields.map Prod.fst ++ ["reward", "done"]) ∧
    (∀ k ls, (k, ls) ∈ w.observation_spec.fields →
      ∃ t, td'.get k = Option.some t ∧ t.shape = ls.shape ∧ t.dtype = ls.dtype) := by
  obtain ⟨a, aspec, rew, dn, s', ha, hs, hst, htd, hw⟩ := _step_ok_inv w td td' w' h
  subst htd
  refine ⟨?_, ?_, ?_, ?_⟩
  · exact ⟨toTensorScalar rew w.reward_spec.dtype,
      by simp [stepOutDict, TensorDict.get, List.lookup], rfl⟩
  · exact ⟨toTensorScalar (if dn then 1 else 0) Dtype.bool,
      by simp [stepOutDict, TensorDict.get, List.lookup], rfl⟩
  · simp [stepOutDict, hspec, _make_observation_spec]
  · intro k ls hmem
    rw [hspec] at hmem
    simp only [_make_observation_spec, List.mem_singleton, Prod.mk.injEq] at hmem
    obtain ⟨hk, hls⟩ := hmem
    subst hk
    subst hls
    refine ⟨tensorOfMatrix (w.dyn.get_obs s') Dtype.float32, ?_, ?_, rfl⟩
    · simp [stepOutDict, TensorDict.get, List.lookup]
    · rw [tensorOfMatrix_shape _ _ (w.dyn.get_env_info w.envState).n_agents
          (w.dyn.get_env_info w.envState).obs_shape ?_ ?_ (hwf.agents_pos w.envState)]
      · rfl
      · rw [hwf.info_static w.envState s']
        exact hwf.obs_rows s'
      · rw [hwf.info_static w.envState s']
        exact hwf.obs_cols s'

/-- Witness for C2 at the demo wrapper and demo action. -/
theorem C2_step_record_witness :
    SC2DynWf demoWrapper.dyn ∧
    _step demoWrapper demoTd = Except.ok (demoStepOut, demoWrapperAfter) ∧
    (∃ r, demoStepOut.get "reward" = Option.some r ∧
      r.dtype = demoWrapper.reward_spec.dtype) :=
  ⟨demoDyn_wf, rfl,
    (C2_step_record demoWrapper demoTd demoStepOut demoWrapperAfter demoDyn_wf rfl rfl).1⟩

/-- C3: after every successful `_step`, the wrapper's input spec is the
one re-derived from the external environment's post-step state, so the
`action` one-hot mask reflects the currently available actions. -/
theorem C3_action_spec_refresh {σ : Type} (w : SC2Wrapper σ) (td td' : TensorDict)
    (w' : SC2Wrapper σ) (h : _step w td = Except.ok (td', w')) :
    w'.input_spec = _make_input_spec w'.dyn w'.envState ∧
    w'.input_spec.fields.lookup "action"
      = Option.some (LeafSpec.customNdOneHotDiscrete
          (boolMatrixTensor (w'.dyn.get_avail_actions w'.envState))) := by
  obtain ⟨a, aspec, rew, dn, s', ha, hs, hst, htd, hw⟩ := _step_ok_inv w td td' w' h
  subst hw
  exact ⟨rfl, rfl⟩

/-- Witness for C3 at the demo wrapper: the refreshed mask is the one of
the advanced environment state. -/
theorem C3_action_spec_refresh_witness :
    _step demoWrapper demoTd = Except.ok (demoStepOut, demoWrapperAfter) ∧
    demoWrapperAfter.input_spec.fields.lookup "action"
      = Option.some (LeafSpec.customNdOneHotDiscrete
          (boolMatrixTensor
            (demoWrapperAfter.dyn.get_avail_actions demoWrapperAfter.envState))) :=
  ⟨rfl, (C3_action_spec_refresh demoWrapper demoTd demoStepOut demoWrapperAfter rfl).2⟩

/-- C9: `_step` performs no validation of its own on the incoming action:
for any record holding an action, the action is converted by the action
spec's `to_numpy` rule and handed to the external environment's `step`;
an error the environment raises propagates to the caller unchanged, and
whatever the environment accepts, `_step` accepts. -/
theorem C9_action_passthrough {σ : Type} (w : SC2Wrapper σ) (td : TensorDict)
    (a : Tensor) (aspec : LeafSpec)
    (ha : td.get "action" = Option.some a)
    (hs : w.input_spec.fields.lookup "action" = Option.some aspec) :
    (∀ e, w.dyn.step w.envState (aspec.to_numpy a) = Except.error e →
      _step w td = Except.error e) ∧
    (∀ rew dn s', w.dyn.step w.envState (aspec.to_numpy a) = Except.ok (rew, dn, s') →
      ∃ td' w', _step w td = Except.ok (td', w')) := by
  constructor
  · intro e he
    simp [_step, _action_transform, ha, hs, he]
  · intro rew dn s' hok
    exact ⟨stepOutDict w td rew dn s',
      { w with envState := s', input_spec := _make_input_spec w.dyn s' },
      _step_eq_ok w td a aspec rew dn s' ha hs hok⟩

/-- Witness for C9: the demo environment rejects a malformed action list
and `_step` surfaces that exact error. -/
theorem C9_action_passthrough_witness :
    demoBadTd.get "action" = Option.some demoBadAction ∧
    demoWrapper.input_spec.fields.lookup "action" = Option.some demoActionSpec ∧
    _step demoWrapper demoBadTd
      = Except.error (PyError.runtimeError "invalid action list") :=
  ⟨rfl, rfl,
    (C9_action_passthrough demoWrapper demoBadTd demoBadAction demoActionSpec rfl rfl).1
      (PyError.runtimeError "invalid action list") rfl⟩

/-- C10: `_step` reads nothing of the input record but its `action` field
and batch size — two input records agreeing there produce identical
results — and on success it returns a fresh record, with exactly the
observation, reward and done fields, whose batch size equals the input
record's; the input record itself is never written to. -/
theorem C10_step_frame {σ : Type} (w : SC2Wrapper σ) (td td2 td' : TensorDict)
    (w' : SC2Wrapper σ) (h : _step w td = Except.ok (td', w'))
    (hact : td2.get "action" = td.get "action")
    (hbatch : td2.batch_size = td.batch_size) :
    _step w td2 = _step w td ∧
    td'.batch_size = td.batch_size ∧
    td'.fields.map Prod.fst = ["observation", "reward", "done"] := by
  obtain ⟨a, aspec, rew, dn, s', ha, hs, hst, htd, hw⟩ := _step_ok_inv w td td' w' h
  subst htd
  refine ⟨?_, rfl, by simp [stepOutDict]⟩
  unfold _step _action_transform
  simp only [hact, hbatch]

/-- Witness for C10 at the demo wrapper, taking the second record to be
the first. -/
theorem C10_step_frame_witness :
    _step demoWrapper demoTd = Except.ok (demoStepOut, demoWrapperAfter) ∧
    demoStepOut.batch_size = demoTd.batch_size ∧
    demoStepOut.fields.map Prod.fst = ["observation", "reward", "done"] :=
  ⟨rfl,
    (C10_step_frame demoWrapper demoTd demoTd demoStepOut demoWrapperAfter rfl rfl rfl).2.1,
    (C10_step_frame demoWrapper demoTd demoTd demoStepOut demoWrapperAfter rfl rfl rfl).2.2⟩

end SmacVerify
